import Mathlib

/-!
# Verification of the `exception` error-annotation library

Shallow embedding of the Go package `exception` (file `exception.go`):
an annotated-error type `CustomError` carrying a classification code, a
message, a location trace, a list of prior location traces and an optional
wrapped cause, together with its construction, wrapping and inspection
operations.

Go `error` interface values are modelled by `Option GoError` (`none` is the
nil interface).  A `*CustomError` value stored in an interface appears as
`GoError.custom ...`; any other concrete error type appears as
`GoError.plain msg` (only its `Error()` string is observable).  The runtime
stack inspection of `captureStackTrace` is modelled by passing the (possibly
unresolvable) caller frame explicitly: `none` models `runtime.Callers`
returning no frame.
-/

namespace Exception

/-- Go `type ErrorCode int`. -/
abbrev ErrorCode := Int

def ErrorBadRequest : ErrorCode := 400

def ErrorUnauthorized : ErrorCode := 401

def ErrorForbidden : ErrorCode := 403

def ErrorNotFound : ErrorCode := 404

def ErrorInternalServer : ErrorCode := 500

def ErrorNotImplemented : ErrorCode := 501

def ErrorServiceUnavailable : ErrorCode := 503

/-- A concrete Go error value.  `custom` carries the five fields of the Go
struct `CustomError` (code, Message, Trace, PreviousTraces, Err); `plain`
is any other error implementation, observable only through its message. -/
inductive GoError : Type where
  | plain (msg : String) : GoError
  | custom (code : ErrorCode) (Message : String) (Trace : String)
      (PreviousTraces : List String) (Err : Option GoError) : GoError

/-- The Go struct `CustomError`, as a record (the payload of
`GoError.custom`). -/
structure CustomError : Type where
  code : ErrorCode
  Message : String
  Trace : String
  PreviousTraces : List String
  Err : Option GoError

/-- View a `CustomError` record as a Go error value (the `*CustomError`
stored in a non-nil `error` interface). -/
def CustomError.toError (e : CustomError) : GoError :=
  GoError.custom e.code e.Message e.Trace e.PreviousTraces e.Err

/-- The Go type assertion `err.(*CustomError)`: succeeds exactly on a
non-nil interface holding a `*CustomError`. -/
def asCustom : Option GoError → Option CustomError
  | some (GoError.custom c m t p cause) => some ⟨c, m, t, p, cause⟩
  | _ => none

/-- Go `type CustomErrorOption func(*CustomError)`, modelled functionally:
an option is a field update on the record. -/
def CustomErrorOption := CustomError → CustomError

def WithCode (code : ErrorCode) : CustomErrorOption :=
  fun e => { e with code := code }

def WithMessage (msg : String) : CustomErrorOption :=
  fun e => { e with Message := msg }

def WithTrace (trace : String) : CustomErrorOption :=
  fun e => { e with Trace := trace }

def WithPreviousTraces (traces : List String) : CustomErrorOption :=
  fun e => { e with PreviousTraces := traces }

def WithCause (err : Option GoError) : CustomErrorOption :=
  fun e => { e with Err := err }

/-- Applying a list of options in order to an error record (the loop body
of `newCustomError` and of the in-place update in `wrapError`). -/
def applyOpts (opts : List CustomErrorOption) (e : CustomError) : CustomError :=
  opts.foldl (fun e opt => opt e) e

/-- Go `newCustomError`: start from the zero value of the struct and apply
the options in order. -/
def newCustomError (opts : List CustomErrorOption) : CustomError :=
  applyOpts opts { code := 0, Message := "", Trace := "", PreviousTraces := [], Err := none }

/-- Go `New(msg, code)`. -/
def New (msg : String) (code : ErrorCode) : CustomError :=
  newCustomError [WithMessage msg, WithCode code]

/-- Method `(e *CustomError) Error()`. -/
def CustomError.Error (e : CustomError) : String :=
  if e.Message = "" then "unknown error" else e.Message

/-- Method `(e *CustomError) Cause()`. -/
def CustomError.Cause (e : CustomError) : Option GoError :=
  e.Err

/-- Method `(e *CustomError) Code()`. -/
def CustomError.Code (e : CustomError) : ErrorCode :=
  e.code

/-- Method `(e *CustomError) Unwrap()`. -/
def CustomError.Unwrap (e : CustomError) : Option GoError :=
  e.Err

/-- Method `(e *CustomError) Is(target)`: the type assertion on `target`
followed by code comparison. -/
def CustomError.Is (e : CustomError) (target : Option GoError) : Bool :=
  match asCustom target with
  | some t => e.code == t.code
  | none => false

/-- Method `(e *CustomError) PrintTrace()`: empty when `Trace` is empty,
otherwise `Trace` and all previous traces joined by newlines. -/
def CustomError.PrintTrace (e : CustomError) : String :=
  if e.Trace = "" then ""
  else String.intercalate "\n" (e.Trace :: e.PreviousTraces)

/-- A resolvable stack frame, as used by `captureStackTrace` to render a
location (`runtime.Frame`'s File, Line and Function). -/
structure Frame : Type where
  File : String
  Line : Nat
  Function : String

/-- Go `captureStackTrace`: `"unknown"` when `runtime.Callers` resolves no
frame, otherwise `fmt.Sprintf("%s:%d %s", frame.File, frame.Line,
frame.Function)`.  The resolved frame is passed explicitly. -/
def captureStackTrace (frame : Option Frame) : String :=
  match frame with
  | none => "unknown"
  | some f => f.File ++ ":" ++ toString f.Line ++ " " ++ f.Function

/-- Go `wrapError(err, opts...)`: capture a trace; if `err` is already a
`*CustomError`, update it in place (new trace, previous traces pushed
down, then the options) and return the same error; otherwise build a new
`CustomError` with the captured trace, empty previous traces and `err` as
cause, then the options. -/
def wrapError (frame : Option Frame) (err : Option GoError)
    (opts : List CustomErrorOption) : GoError :=
  let trace := captureStackTrace frame
  match asCustom err with
  | some customErr =>
      let previousTraces := customErr.Trace :: customErr.PreviousTraces
      let updated := { customErr with Trace := trace, PreviousTraces := previousTraces }
      (applyOpts opts updated).toError
  | none =>
      (newCustomError ([WithTrace trace, WithPreviousTraces [], WithCause err] ++ opts)).toError

/-- Go `WrapTrace(err)`. -/
def WrapTrace (frame : Option Frame) (err : Option GoError) : GoError :=
  wrapError frame err [WithMessage "An error occurred"]

/-- Go `WrapMessageWithCode(err, errCode, msg)`. -/
def WrapMessageWithCode (frame : Option Frame) (err : Option GoError)
    (errCode : ErrorCode) (msg : String) : GoError :=
  wrapError frame err [WithMessage msg, WithCode errCode]

/-- Go `WrapMessage(err, msg)`. -/
def WrapMessage (frame : Option Frame) (err : Option GoError) (msg : String) : GoError :=
  wrapError frame err [WithMessage msg, WithCode ErrorInternalServer]

/-- Free function `Cause(err)`: follow the cause chain through every
`*CustomError` link with a non-nil cause. -/
def Cause : Option GoError → Option GoError
  | some (GoError.custom _ _ _ _ (some cause)) =>
      Cause (some cause)
  | err => err

/-- Free function `Unwrap(err)`. -/
def Unwrap : Option GoError → Option GoError
  | some (GoError.custom _ _ _ _ cause) => cause
  | err => err

/-- Free function `Trace(err)`. -/
def Trace : Option GoError → String
  | some (GoError.custom c m t p err) => CustomError.PrintTrace ⟨c, m, t, p, err⟩
  | _ => ""

/-- Free function `IsCustomError(err)`. -/
def IsCustomError : Option GoError → Bool
  | some (GoError.custom _ _ _ _ _) => true
  | _ => false

/-- Length of the cause chain: number of `*CustomError` links with a
non-nil cause that `Cause` steps through. -/
def chainLength : Option GoError → Nat
  | some (GoError.custom _ _ _ _ (some cause)) => chainLength (some cause) + 1
  | _ => 0

/-- An error is a terminal link of a cause chain when it is not a
`*CustomError` carrying a non-nil cause (i.e. it is nil, a plain error, or
a `*CustomError` with no cause). -/
def isTerminalLink : Option GoError → Bool
  | some (GoError.custom _ _ _ _ (some _)) => false
  | _ => true

/-- One step down a cause chain: from a `*CustomError` with a non-nil
cause to that cause. -/
inductive CauseStep : Option GoError → Option GoError → Prop where
  | step (c : ErrorCode) (m t : String) (p : List String) (cause : GoError) :
      CauseStep (some (GoError.custom c m t p (some cause))) (some cause)

/-- Number of newline-separated lines of a rendered string: one more than
the number of newline characters it contains. -/
def lineCount (s : String) : Nat :=
  s.data.count '\n' + 1

end Exception
namespace Exception

/-- C1 counterexample: wrapping the plain error "v is 0" twice (with no
resolvable frame) yields `PreviousTraces` of length 1 after the second
wrap, so the claimed length 2 is false. -/
theorem C1_counterexample :
    ¬ ((asCustom (some (WrapMessage none (some (WrapMessage none
        (some (GoError.plain "v is 0")) "first")) "second"))).map
          (fun c => c.PreviousTraces.length) = some 2) := by
  decide

/-- C1 (amended): wrapping a plain error once, twice, three times via
`WrapMessage` yields `PreviousTraces` of length 0, 1 and 2 respectively
(not 2 and 3 as claimed), each new trace prepended most-recent-first, and
the direct cause at every step is still the original plain error. -/
theorem C1_amended (msg m1 m2 m3 : String) (f1 f2 f3 : Option Frame) :
    (asCustom (some (WrapMessage f1 (some (GoError.plain msg)) m1))).map
        CustomError.PreviousTraces = some [] ∧
    (asCustom (some (WrapMessage f2 (some (WrapMessage f1 (some (GoError.plain msg)) m1)) m2))).map
        CustomError.PreviousTraces = some [captureStackTrace f1] ∧
    (asCustom (some (WrapMessage f3 (some (WrapMessage f2 (some (WrapMessage f1
        (some (GoError.plain msg)) m1)) m2)) m3))).map
        CustomError.PreviousTraces = some [captureStackTrace f2, captureStackTrace f1] ∧
    (asCustom (some (WrapMessage f1 (some (GoError.plain msg)) m1))).map
        CustomError.Cause = some (some (GoError.plain msg)) ∧
    (asCustom (some (WrapMessage f2 (some (WrapMessage f1 (some (GoError.plain msg)) m1)) m2))).map
        CustomError.Cause = some (some (GoError.plain msg)) ∧
    (asCustom (some (WrapMessage f3 (some (WrapMessage f2 (some (WrapMessage f1
        (some (GoError.plain msg)) m1)) m2)) m3))).map
        CustomError.Cause = some (some (GoError.plain msg)) :=
  ⟨rfl, rfl, rfl, rfl, rfl, rfl⟩

/-- C2: wrapping an existing `*CustomError` sets its `Trace` to the newly
captured trace, sets `PreviousTraces` to the old `Trace` prepended before
the old `PreviousTraces` (order preserved), then applies the supplied
message/code overrides (`WrapMessageWithCode` sets both, `WrapMessage`
forces code 500, `WrapTrace` only replaces the message). -/
theorem C2_rewrap (c : ErrorCode) (m t : String) (p : List String)
    (cause : Option GoError) (f : Option Frame) (code : ErrorCode) (msg : String) :
    WrapMessageWithCode f (some (GoError.custom c m t p cause)) code msg
      = GoError.custom code msg (captureStackTrace f) (t :: p) cause ∧
    WrapMessage f (some (GoError.custom c m t p cause)) msg
      = GoError.custom ErrorInternalServer msg (captureStackTrace f) (t :: p) cause ∧
    WrapTrace f (some (GoError.custom c m t p cause))
      = GoError.custom c "An error occurred" (captureStackTrace f) (t :: p) cause :=
  ⟨rfl, rfl, rfl⟩

/-- C3: wrapping an existing `*CustomError` updates that same error value
rather than nesting a new wrapper around it: the result is the input
record with only `Trace` and `PreviousTraces` changed (plus explicitly
overridden message/code), the cause field is untouched, and the cause
chain length is unchanged. -/
theorem C3_rewrap_in_place (c : ErrorCode) (m t : String) (p : List String)
    (cause : Option GoError) (f : Option Frame) :
    wrapError f (some (GoError.custom c m t p cause)) []
      = GoError.custom c m (captureStackTrace f) (t :: p) cause ∧
    (asCustom (some (WrapTrace f (some (GoError.custom c m t p cause))))).map
        CustomError.Cause = some cause ∧
    chainLength (some (WrapTrace f (some (GoError.custom c m t p cause))))
      = chainLength (some (GoError.custom c m t p cause)) := by
  refine ⟨rfl, rfl, ?_⟩
  show chainLength (some (GoError.custom c "An error occurred" (captureStackTrace f) (t :: p) cause)) = _
  cases cause <;> simp [chainLength]

/-- C4 counterexample: `WrapTrace` on a plain error leaves the code at the
zero value 0, not `ErrorInternalServer` (500), so the claimed default is
false. -/
theorem C4_counterexample :
    ¬ ((asCustom (some (WrapTrace none (some (GoError.plain "x"))))).map
        CustomError.Code = some ErrorInternalServer) := by
  decide

/-- C4 (amended): wrapping a non-`*CustomError` error produces a new
`CustomError` whose `Trace` is the newly captured trace, whose
`PreviousTraces` is empty and whose cause is the wrapped error; when the
code is not explicitly supplied (as in `WrapTrace`) it remains the zero
"unset" value 0, not 500. -/
theorem C4_amended (f : Option Frame) (msg : String) :
    WrapTrace f (some (GoError.plain msg))
      = GoError.custom 0 "An error occurred" (captureStackTrace f) []
          (some (GoError.plain msg)) :=
  rfl

/-- C10: wrapping a nil error through any wrap entry point returns a new
(non-nil) `*CustomError` with no cause, carrying the supplied
message/code (zero code for `WrapTrace`) and the freshly captured trace. -/
theorem C10_wrap_nil (f : Option Frame) (msg : String) (code : ErrorCode) :
    WrapTrace f none
      = GoError.custom 0 "An error occurred" (captureStackTrace f) [] none ∧
    WrapMessage f none msg
      = GoError.custom ErrorInternalServer msg (captureStackTrace f) [] none ∧
    WrapMessageWithCode f none code msg
      = GoError.custom code msg (captureStackTrace f) [] none ∧
    IsCustomError (some (WrapTrace f none)) = true :=
  ⟨rfl, rfl, rfl, rfl⟩

end Exception
namespace Exception

/-- C5: for every error value (all cause chains in the model are finite
and acyclic), the free function `Cause` returns a terminal link of the
chain — an error that is nil, not a `*CustomError`, or a `*CustomError`
with no cause — and that result is reachable from the input by following
cause links, so it is never an intermediate `*CustomError` link.
Termination is witnessed by `Cause` being a total function. -/
theorem C5_cause_terminal (err : Option GoError) :
    isTerminalLink (Cause err) = true ∧
    Relation.ReflTransGen CauseStep err (Cause err) := by
  induction err using Cause.induct with
  | case1 c m t p cause ih =>
      rw [Cause]
      exact ⟨ih.1, Relation.ReflTransGen.head (CauseStep.step c m t p cause) ih.2⟩
  | case2 err h =>
      have hC : Cause err = err := by
        cases err with
        | none => rw [Cause]; exact h
        | some e =>
          cases e with
          | plain m => rw [Cause]; exact h
          | custom c m t p cause =>
            cases cause with
            | none => rw [Cause]; exact h
            | some v => exact absurd rfl (h c m t p v)
      rw [hC]
      refine ⟨?_, Relation.ReflTransGen.refl⟩
      cases err with
      | none => rfl
      | some e =>
        cases e with
        | plain m => rfl
        | custom c m t p cause =>
          cases cause with
          | none => rfl
          | some v => exact absurd rfl (h c m t p v)

/-- C7: `New(m, c).Error()` is `m` when `m` is non-empty and
"unknown error" when `m` is empty; `Error()` never returns the empty
string on any `CustomError`. -/
theorem C7_error_fallback (m : String) (c : ErrorCode) :
    (m ≠ "" → (New m c).Error = m) ∧
    (m = "" → (New m c).Error = "unknown error") ∧
    (∀ e : CustomError, e.Error ≠ "") := by
  refine ⟨?_, ?_, ?_⟩
  · intro h
    simp [New, newCustomError, applyOpts, WithMessage, WithCode, CustomError.Error, h]
  · intro h
    simp [New, newCustomError, applyOpts, WithMessage, WithCode, CustomError.Error, h]
  · intro e
    simp only [CustomError.Error]
    split
    · decide
    · assumption

/-- C7 witness: the hypotheses of `C7_error_fallback` discharged at the
concrete messages "a" and "". -/
theorem C7_witness :
    ("a" ≠ "" ∧ ("" : String) = "") ∧
    ((New "a" 404).Error = "a" ∧ (New "" 404).Error = "unknown error" ∧
      (New "" 404).Error ≠ "") :=
  ⟨⟨by decide, rfl⟩,
    (C7_error_fallback "a" 404).1 (by decide),
    (C7_error_fallback "" 404).2.1 rfl,
    (C7_error_fallback "" 404).2.2 (New "" 404)⟩

/-- C8: `e.Is(target)` is true exactly when `target` is a `*CustomError`
whose code equals the code of `e`, regardless of message, trace or cause;
on a plain error or a nil target it is false. -/
theorem C8_is_matches_code (e : CustomError) (c : ErrorCode) (m t : String)
    (p : List String) (cause : Option GoError) (msg : String) :
    (e.Is (some (GoError.custom c m t p cause)) = true ↔ e.code = c) ∧
    e.Is (some (GoError.plain msg)) = false ∧
    e.Is none = false := by
  refine ⟨?_, rfl, rfl⟩
  simp [CustomError.Is, asCustom]

/-- C9: the captured trace is never empty — it is the rendered
`file:line function` string when a frame resolves and the literal
"unknown" when none does — and every wrap entry point stores exactly this
captured trace in the resulting error's `Trace` field. -/
theorem C9_trace_nonempty (f : Option Frame) (err : Option GoError)
    (msg : String) (code : ErrorCode) :
    captureStackTrace f ≠ "" ∧
    captureStackTrace none = "unknown" ∧
    (asCustom (some (WrapTrace f err))).map CustomError.Trace
      = some (captureStackTrace f) ∧
    (asCustom (some (WrapMessage f err msg))).map CustomError.Trace
      = some (captureStackTrace f) ∧
    (asCustom (some (WrapMessageWithCode f err code msg))).map CustomError.Trace
      = some (captureStackTrace f) := by
  refine ⟨?_, rfl, ?_, ?_, ?_⟩
  · cases f with
    | none => simp [captureStackTrace]
    | some fr =>
      intro h
      have hlen := congrArg String.length h
      simp [captureStackTrace, String.length_append] at hlen
      exact absurd hlen.1.1.1.2 (by decide)
  all_goals
    cases err with
    | none => rfl
    | some e =>
      cases e with
      | plain m2 => rfl
      | custom c2 m2 t2 p2 cause2 => rfl

end Exception
namespace Exception

/-- Character count of the accumulator loop of `String.intercalate`. -/
theorem intercalate_go_count (c : Char) (s : String) (l : List String) (acc : String) :
    (String.intercalate.go acc s l).data.count c
      = acc.data.count c + (l.map fun a => s.data.count c + a.data.count c).sum := by
  induction l generalizing acc with
  | nil => simp [String.intercalate.go]
  | cons a as ih =>
      rw [String.intercalate.go, ih]
      simp [String.data_append, List.count_append]
      ring

/-- The accumulator loop of `String.intercalate` never shrinks the
accumulated string. -/
theorem intercalate_go_length (s : String) (l : List String) (acc : String) :
    acc.length ≤ (String.intercalate.go acc s l).length := by
  induction l generalizing acc with
  | nil => simp [String.intercalate.go]
  | cons a as ih =>
      rw [String.intercalate.go]
      refine le_trans ?_ (ih (acc ++ s ++ a))
      simp [String.length_append]
      omega

/-- Joining newline-free pieces contributes exactly one newline per
piece. -/
theorem sum_map_newline_count (ps : List String)
    (h : ∀ s ∈ ps, s.data.count '\n' = 0) :
    (ps.map fun a => ("\n" : String).data.count '\n' + a.data.count '\n').sum
      = ps.length := by
  induction ps with
  | nil => simp
  | cons a as ih =>
      have ha : a.data.count '\n' = 0 := h a (by simp)
      have has : ∀ s ∈ as, s.data.count '\n' = 0 := fun s hs => h s (by simp [hs])
      have hn : ("\n" : String).data.count '\n' = 1 := rfl
      rw [List.map_cons, List.sum_cons, ih has, List.length_cons]
      simp only [ha, hn]
      omega

/-- A non-empty string has positive length. -/
theorem length_pos_of_ne_empty (s : String) (h : s ≠ "") : 0 < s.length := by
  cases s with
  | mk d =>
    cases d with
    | nil => exact absurd rfl h
    | cons ch chs => simp [String.length]

/-- C6: `PrintTrace()` is the empty string when `Trace` is empty, and
`Trace(err)` of a nil or plain error is empty; for an error with a
non-empty `Trace` whose stored traces contain no newline characters,
`Trace(err)` equals `PrintTrace()`, which is non-empty and renders
exactly `1 + len(PreviousTraces)` newline-separated lines,
most-recent-first. -/
theorem C6_print_trace (e : CustomError) (msg : String)
    (hne : e.Trace ≠ "")
    (hclean : ∀ s ∈ e.Trace :: e.PreviousTraces, s.data.count '\n' = 0) :
    (∀ e2 : CustomError, e2.Trace = "" → e2.PrintTrace = "") ∧
    Trace none = "" ∧
    Trace (some (GoError.plain msg)) = "" ∧
    Trace (some e.toError) = e.PrintTrace ∧
    e.PrintTrace ≠ "" ∧
    lineCount e.PrintTrace = 1 + e.PreviousTraces.length := by
  refine ⟨?_, rfl, rfl, rfl, ?_, ?_⟩
  · intro e2 h
    simp [CustomError.PrintTrace, h]
  · rw [CustomError.PrintTrace, if_neg hne]
    intro hcontr
    have hlen := congrArg String.length hcontr
    have hgo : (String.intercalate "\n" (e.Trace :: e.PreviousTraces)).length
        = (String.intercalate.go e.Trace "\n" e.PreviousTraces).length := rfl
    have htpos : 0 < e.Trace.length := length_pos_of_ne_empty e.Trace hne
    have := intercalate_go_length "\n" e.PreviousTraces e.Trace
    rw [hgo] at hlen
    simp [String.length_empty] at hlen
    omega
  · rw [CustomError.PrintTrace, if_neg hne]
    have hgo : String.intercalate "\n" (e.Trace :: e.PreviousTraces)
        = String.intercalate.go e.Trace "\n" e.PreviousTraces := rfl
    rw [lineCount, hgo, intercalate_go_count]
    have ht : e.Trace.data.count '\n' = 0 := hclean e.Trace (by simp)
    have hps : ∀ s ∈ e.PreviousTraces, s.data.count '\n' = 0 :=
      fun s hs => hclean s (by simp [hs])
    rw [ht, sum_map_newline_count e.PreviousTraces hps]
    omega

/-- C6 witness: the hypotheses of `C6_print_trace` discharged at a
concrete error with `Trace = "a"` and one previous trace `"b"`. -/
theorem C6_witness :
    ((⟨0, "", "a", ["b"], none⟩ : CustomError).Trace ≠ "" ∧
      ∀ s ∈ (⟨0, "", "a", ["b"], none⟩ : CustomError).Trace ::
        (⟨0, "", "a", ["b"], none⟩ : CustomError).PreviousTraces, s.data.count '\n' = 0) ∧
    ((∀ e2 : CustomError, e2.Trace = "" → e2.PrintTrace = "") ∧
      Trace none = "" ∧
      Trace (some (GoError.plain "x")) = "" ∧
      Trace (some (⟨0, "", "a", ["b"], none⟩ : CustomError).toError)
        = (⟨0, "", "a", ["b"], none⟩ : CustomError).PrintTrace ∧
      (⟨0, "", "a", ["b"], none⟩ : CustomError).PrintTrace ≠ "" ∧
      lineCount (⟨0, "", "a", ["b"], none⟩ : CustomError).PrintTrace
        = 1 + (⟨0, "", "a", ["b"], none⟩ : CustomError).PreviousTraces.length) :=
  ⟨⟨by decide, by decide⟩,
    C6_print_trace ⟨0, "", "a", ["b"], none⟩ "x" (by decide) (by decide)⟩

end Exception
